import Mathlib

/-!
Shallow embedding of the async-state React hooks of this repository
(`src/hooks/useAsyncStateEffect.jsx`, `src/hooks/useAsyncAction.js`) and
proofs of the specification's claims about them.

The hooks are thin state machines over mutable state cells.  We embed the
state of each hook as a Lean structure, each `setX` call as a functional
update, and a promise settlement as an explicit outcome value (resolved
with a JS value, or rejected with a throwable).  The `.then/.catch/.finally`
chain of `useAsyncStateEffect` is embedded by combinators that follow the
JS promise semantics for handlers that do not themselves throw (which is
the case for every handler in this code: they only call state setters).
-/

namespace ReactHooks

/-- JavaScript runtime values, at the granularity the hooks observe them:
the hooks only test nullishness (`result ?? initialValue`) and stringify
(`String(err)`), so field-level object structure is opaque (`obj id`). -/
inductive JSVal where
  | undefined
  | null
  | bool (b : Bool)
  | num (n : Int)
  | str (s : String)
  | obj (id : Nat)
deriving DecidableEq, Repr

/-- JavaScript nullish test: `null` and `undefined` are the nullish values. -/
def isNullish : JSVal → Bool
  | .undefined => true
  | .null => true
  | _ => false

/-- JavaScript nullish coalescing `a ?? b`. -/
def nullishCoalesce (a b : JSVal) : JSVal :=
  if isNullish a then b else a

/-- JavaScript `String(v)` conversion for the values of our model. -/
def jsString : JSVal → String
  | .undefined => "undefined"
  | .null => "null"
  | .bool b => if b then "true" else "false"
  | .num n => toString n
  | .str s => s
  | .obj _ => "[object Object]"

/-- A JavaScript `Error` object, reduced to the only field the hooks and the
spec talk about: its `message`. -/
structure JSError where
  message : String
deriving DecidableEq, Repr

/-- A JavaScript throwable: either an `Error` instance (`errObj`) or any
other value (`other v`), e.g. a thrown plain string. -/
inductive Throwable where
  | errObj (e : JSError)
  | other (v : JSVal)
deriving DecidableEq, Repr

/-- Error coercion performed in both catch handlers of
`useAsyncStateEffect.jsx` (lines 58-63 and 80-85):
`err instanceof Error ? err : new Error(String(err))`. -/
def coerceError : Throwable → JSError
  | .errObj e => e
  | .other v => ⟨jsString v⟩

/-- Error coercion performed in the catch block of `useAsyncAction.js`
(lines 46-50): an `Error` instance is stored as-is, any other throwable is
replaced by `new Error("Unknown error occurred.")`. -/
def coerceActionError : Throwable → JSError
  | .errObj e => e
  | .other _ => ⟨"Unknown error occurred."⟩

/-- Settlement of a JavaScript promise: resolved with a value of type `α`,
or rejected with a throwable reason. -/
inductive PromiseResult (α : Type) where
  | resolved (a : α)
  | rejected (t : Throwable)
deriving DecidableEq, Repr

/-- `p.then(f)` where the fulfillment handler `f` only performs state
updates (never throws): fulfillment runs `f`, rejection passes through
with the original reason.  The pair carries the promise produced by the
chain so far together with the state after the handlers that ran. -/
def pThen {α σ : Type} (p : PromiseResult α) (f : α → σ → σ) (s : σ) :
    PromiseResult Unit × σ :=
  match p with
  | .resolved a => (.resolved (), f a s)
  | .rejected t => (.rejected t, s)

/-- `p.catch(f)` where the rejection handler `f` only performs state
updates (never throws): a rejected chain is converted to a resolved one. -/
def pCatch {σ : Type} (pr : PromiseResult Unit × σ) (f : Throwable → σ → σ) :
    PromiseResult Unit × σ :=
  match pr with
  | (.resolved _, s) => (.resolved (), s)
  | (.rejected t, s) => (.resolved (), f t s)

/-- `p.finally(f)` where `f` only performs state updates: `f` always runs
and the settlement passes through unchanged. -/
def pFinally {σ : Type} (pr : PromiseResult Unit × σ) (f : σ → σ) :
    PromiseResult Unit × σ :=
  (pr.1, f pr.2)

/-! ## AutoFetchState: the state of `useAsyncStateEffect` -/

/-- The five state cells of `useAsyncStateEffect` (lines 42-46 of
`useAsyncStateEffect.jsx`). -/
structure FetchState where
  value : JSVal
  isLoading : Bool
  isError : Bool
  error : Option JSError
  isRefreshing : Bool
deriving DecidableEq, Repr

/-- The recognized options of `useAsyncStateEffect` with their defaults
(`initialValue: undefined`, `loadingTrueAtStart: true`). -/
structure FetchOptions where
  initialValue : JSVal := .undefined
  loadingTrueAtStart : Bool := true
deriving DecidableEq, Repr

/-- Initial cell values (lines 42-46): `value = initialValue`,
`isLoading = loadingTrueAtStart`, `isError = false`, `error = null`,
`isRefreshing = false`. -/
def initState (opts : FetchOptions) : FetchState :=
  { value := opts.initialValue
    isLoading := opts.loadingTrueAtStart
    isError := false
    error := none
    isRefreshing := false }

/-- Synchronous prefix of `refresh` (lines 49-50):
`setIsRefreshing(true); setIsLoading(true)`. -/
def refreshStart (s : FetchState) : FetchState :=
  { s with isRefreshing := true, isLoading := true }

/-- Synchronous prefix of the effect body (line 72): `setIsLoading(true)`. -/
def effectStart (s : FetchState) : FetchState :=
  { s with isLoading := true }

/-- Shared fulfillment handler (lines 52-56 and 74-78):
`setValue(result ?? initialValue); setIsError(false); setError(null)`. -/
def onFulfilled (iv : JSVal) (result : JSVal) (s : FetchState) : FetchState :=
  { s with value := nullishCoalesce result iv, isError := false, error := none }

/-- Shared rejection handler (lines 57-64 and 79-86): `setIsError(true)`
and store the coerced error. -/
def onRejected (t : Throwable) (s : FetchState) : FetchState :=
  { s with isError := true, error := some (coerceError t) }

/-- Finally handler of `refresh` (lines 65-68):
`setIsLoading(false); setIsRefreshing(false)`. -/
def refreshFin (s : FetchState) : FetchState :=
  { s with isLoading := false, isRefreshing := false }

/-- Finally handler of the effect body (lines 87-89): `setIsLoading(false)`. -/
def effectFin (s : FetchState) : FetchState :=
  { s with isLoading := false }

/-- Full body of `refresh` (lines 48-69) applied to one settlement `p` of
`func()`: set the flags, then run
`func().then(onFulfilled).catch(onRejected).finally(refreshFin)`.
The first component is the settlement of the promise the `async` closure
returns (the body is `await` of the chain and nothing after it, so the
returned promise settles exactly as the chain does). -/
def refreshChain (iv : JSVal) (p : PromiseResult JSVal) (s : FetchState) :
    PromiseResult Unit × FetchState :=
  pFinally (pCatch (pThen p (onFulfilled iv) (refreshStart s)) onRejected) refreshFin

/-- Full body of the automatic-fetch effect (lines 71-90) applied to one
settlement `p` of `func()`. -/
def effectChain (iv : JSVal) (p : PromiseResult JSVal) (s : FetchState) :
    PromiseResult Unit × FetchState :=
  pFinally (pCatch (pThen p (onFulfilled iv) (effectStart s)) onRejected) effectFin

/-- Which of the two fetch paths an in-flight attempt belongs to: the
automatic effect-driven fetch or the manual `refresh`. -/
inductive FetchKind where
  | auto
  | manual
deriving DecidableEq, Repr

/-- Settlement handling of one in-flight fetch attempt: the shared
then/catch handlers followed by the path's finally handler.  This is the
suffix of `refreshChain`/`effectChain` that runs when the producer's
promise settles, applied to whatever the visible state is at that moment
(which is how overlapping attempts interleave: each settlement applies its
handlers to the state left by whatever ran before it — there is no
generation guard in the source). -/
def settle (iv : JSVal) : FetchKind → PromiseResult JSVal → FetchState → FetchState
  | .auto, .resolved r, s => effectFin (onFulfilled iv r s)
  | .auto, .rejected t, s => effectFin (onRejected t s)
  | .manual, .resolved r, s => refreshFin (onFulfilled iv r s)
  | .manual, .rejected t, s => refreshFin (onRejected t s)

/-- Error component written by a settlement outcome: a success clears the
error, a failure stores the coerced throwable. -/
def outcomeError : PromiseResult JSVal → Option JSError
  | .resolved _ => none
  | .rejected t => some (coerceError t)

/-- Error flag written by a settlement outcome. -/
def outcomeIsError : PromiseResult JSVal → Bool
  | .resolved _ => false
  | .rejected _ => true

/-- Value component written by a settlement outcome: a success writes its
nullish-coalesced result, a failure leaves the preexisting value. -/
def outcomeValue (iv fallback : JSVal) : PromiseResult JSVal → JSVal
  | .resolved r => nullishCoalesce r iv
  | .rejected _ => fallback

/-- The spec's stated invariant over the error fields:
`isError == (error != None)`. -/
def ErrInv (s : FetchState) : Prop :=
  s.isError = s.error.isSome

/-! ## Effect scheduling -/

/-- Whether the dependency-change effect fires at one evaluation: React
runs the effect unconditionally at the first evaluation after mount
(`prev = none`) and afterwards whenever the dependency list differs from
the previously recorded one. -/
def effectFires (prev : Option (List JSVal)) (deps : List JSVal) : Bool :=
  match prev with
  | none => true
  | some old => decide (old ≠ deps)

/-- Number of automatic fetches scheduled over a sequence of dependency
evaluations, starting from recorded baseline `prev`. -/
def fetchCount : Option (List JSVal) → List (List JSVal) → Nat
  | _, [] => 0
  | prev, d :: rest => (if effectFires prev d then 1 else 0) + fetchCount (some d) rest

/-! ## AsyncActionState: the state of `useAsyncAction` -/

/-- The state cells of `useAsyncAction` (lines 31-33 of
`useAsyncAction.js`): `data` starts `null`, `error` starts `null`,
`isLoading` starts `false`.  `isError` is the derived `!!error`. -/
structure ActionState where
  data : JSVal
  error : Option JSError
  isLoading : Bool
deriving DecidableEq, Repr

/-- Initial cell values of `useAsyncAction`. -/
def initActionState : ActionState :=
  { data := .null, error := none, isLoading := false }

/-- The derived `isError = !!error` of `useAsyncAction` (line 34). -/
def actionIsError (s : ActionState) : Bool :=
  s.error.isSome

/-- Observable outcome of one invocation of `useAsyncAction`'s `run`:
the state after the invocation, the settlement of the promise `run`
returns (carrying the `{ data, error }` pair, whose `error` slot holds the
raw throwable), and which callbacks fired with which argument. -/
structure RunResult where
  state : ActionState
  promise : PromiseResult (JSVal × Option Throwable)
  onCompleteCalled : Bool
  onErrorArg : Option (Option JSError)
deriving DecidableEq, Repr

/-- One invocation of `run` (lines 36-56 of `useAsyncAction.js`), applied
to the settlement `p` of `fn(...args)`.  `closureError` is the value of
the `error` binding captured by the `run` closure when it was created
(the render-time value of the `error` cell): line 51 passes this binding —
not the freshly caught `err` — to `options?.onError?.(...)`.  The body is
`try { await fn(...); setData; onComplete; return {data, error: null} }
catch (err) { setError(coerced); onError(error); return {data: null,
error: err} } finally { setIsLoading(false) }`: the catch-all returns
instead of rethrowing, so the returned promise resolves on both paths. -/
def runAction (closureError : Option JSError) (p : PromiseResult JSVal)
    (s : ActionState) : RunResult :=
  let s0 : ActionState := { s with isLoading := true, error := none }
  match p with
  | .resolved r =>
    { state := { s0 with data := r, isLoading := false }
      promise := .resolved (r, none)
      onCompleteCalled := true
      onErrorArg := none }
  | .rejected t =>
    { state := { s0 with error := some (coerceActionError t), isLoading := false }
      promise := .resolved (JSVal.null, some t)
      onCompleteCalled := false
      onErrorArg := some closureError }

/-! ## Coherence of the chain and settlement presentations -/

/-- The state after the whole `refresh` body equals `settle` of the manual
kind applied after the synchronous prefix. -/
theorem refreshChain_eq_settle (iv : JSVal) (p : PromiseResult JSVal) (s : FetchState) :
    (refreshChain iv p s).2 = settle iv .manual p (refreshStart s) := by
  cases p <;> rfl

/-- The state after the whole automatic-effect body equals `settle` of the
auto kind applied after the synchronous prefix. -/
theorem effectChain_eq_settle (iv : JSVal) (p : PromiseResult JSVal) (s : FetchState) :
    (effectChain iv p s).2 = settle iv .auto p (effectStart s) := by
  cases p <;> rfl

/-! ## Claim theorems -/

/-- Claim C1: for every producer settlement (resolution or rejection), the
promise returned by `refresh()` resolves — a producer rejection is absorbed
by the catch handler into the error state and is never propagated as a
rejected completion of `refresh()`'s own promise. -/
theorem c1_refresh_never_rejects (iv : JSVal) (p : PromiseResult JSVal) (s : FetchState) :
    (refreshChain iv p s).1 = .resolved () := by
  cases p <;> rfl

/-- Claim C2, counterexample to the claim as stated: when `useAsyncAction`'s
`run` fails with the plain string `"boom"`, the stored error's message is the
fixed text `"Unknown error occurred."`, not the string form `"boom"` of the
thrown value. -/
theorem c2_counterexample :
    (runAction none (.rejected (.other (.str "boom"))) initActionState).state.error =
      some ⟨"Unknown error occurred."⟩ ∧
    (runAction none (.rejected (.other (.str "boom"))) initActionState).state.error ≠
      some ⟨jsString (.str "boom")⟩ := by
  decide

/-- Claim C2 (amended): on a failed AutoFetchState fetch attempt, a thrown
`Error` instance is stored as-is and any other throwable is stored as an
error whose message is its string form; on a failed `run` of
AsyncActionState, a thrown `Error` instance is stored as-is but any other
throwable is stored as an error with the fixed message
`"Unknown error occurred."`, discarding the thrown value's string form. -/
theorem c2_error_coercion (iv : JSVal) (k : FetchKind) (v : JSVal) (e : JSError)
    (s : FetchState) (sa : ActionState) (ce : Option JSError) :
    (settle iv k (.rejected (.errObj e)) s).error = some e ∧
    (settle iv k (.rejected (.other v)) s).error = some ⟨jsString v⟩ ∧
    (runAction ce (.rejected (.errObj e)) sa).state.error = some e ∧
    (runAction ce (.rejected (.other v)) sa).state.error =
      some ⟨"Unknown error occurred."⟩ := by
  cases k <;>
    simp [settle, runAction, coerceError, coerceActionError, onRejected,
      effectFin, refreshFin]

/-- Claim C3: when two fetch attempts of any kinds (auto-driven or manual)
settle one after the other, the visible error fields after both settlements
are exactly those written by the later-settling attempt's outcome,
irrespective of the earlier attempt's kind or outcome, and the visible value
is the later outcome's write (its coalesced result on success, the value
left by the earlier settlement on failure): no guard suppresses the
later-settling write. -/
theorem c3_last_settlement_wins (iv : JSVal) (s : FetchState)
    (k1 k2 : FetchKind) (o1 o2 : PromiseResult JSVal) :
    (settle iv k2 o2 (settle iv k1 o1 s)).error = outcomeError o2 ∧
    (settle iv k2 o2 (settle iv k1 o1 s)).isError = outcomeIsError o2 ∧
    (settle iv k2 o2 (settle iv k1 o1 s)).value =
      outcomeValue iv (settle iv k1 o1 s).value o2 := by
  cases o2 <;> cases k2 <;>
    simp [settle, onFulfilled, onRejected, effectFin, refreshFin,
      outcomeError, outcomeIsError, outcomeValue]

/-- Claim C4: every successful completion of a fetch, on either the
automatic or the manual path, sets `value` to the result coalesced with the
configured initial value (the initial value when the result is null-like,
the result itself otherwise), sets `isError` to false and `error` to None. -/
theorem c4_success_updates (iv : JSVal) (k : FetchKind) (r : JSVal) (s : FetchState) :
    (settle iv k (.resolved r) s).value = nullishCoalesce r iv ∧
    (settle iv k (.resolved r) s).isError = false ∧
    (settle iv k (.resolved r) s).error = none := by
  cases k <;> simp [settle, onFulfilled, effectFin, refreshFin]

/-- Claim C5: a failed completion of a fetch, on either path, leaves `value`
exactly as it was before the attempt's settlement; the automatic path also
leaves `isRefreshing` untouched, so only `isError`, `error`, `isLoading`
(and `isRefreshing` on the manual path) change. -/
theorem c5_failure_preserves_value (iv : JSVal) (k : FetchKind) (t : Throwable)
    (s : FetchState) :
    (settle iv k (.rejected t) s).value = s.value ∧
    (settle iv .auto (.rejected t) s).isRefreshing = s.isRefreshing := by
  cases k <;> simp [settle, onRejected, effectFin, refreshFin]

/-- Claim C6: after the synchronous prefix of `refresh()` and until the
producer settles, both `isRefreshing` and `isLoading` are true; once the
attempt settles (success or failure), the finally handler leaves both
false. -/
theorem c6_refresh_flags (iv : JSVal) (p : PromiseResult JSVal) (s : FetchState) :
    ((refreshStart s).isRefreshing = true ∧ (refreshStart s).isLoading = true) ∧
    ((refreshChain iv p s).2.isRefreshing = false ∧
      (refreshChain iv p s).2.isLoading = false) := by
  cases p <;>
    simp [refreshChain, pFinally, pCatch, pThen, refreshStart, refreshFin,
      onFulfilled, onRejected]

/-- Claim C7: the mount-time evaluation of the dependency effect fires
exactly one automatic fetch, whatever the options are (the firing condition
never reads them); the `loadingTrueAtStart` option determines only the
initial value of the visible `isLoading` flag. -/
theorem c7_mount_fetch (opts : FetchOptions) (deps : List JSVal) :
    fetchCount none [deps] = 1 ∧
    (initState opts).isLoading = opts.loadingTrueAtStart := by
  simp [fetchCount, effectFires, initState]

/-- Claim C8: the invariant `isError == (error != None)` holds in the
initial state for every option choice and is preserved by every operation:
the synchronous prefixes of both paths preserve it, and every settlement
(either kind, either outcome) re-establishes it, since `isError` and
`error` are always written together. -/
theorem c8_error_flag_invariant (opts : FetchOptions) (s : FetchState)
    (h : ErrInv s) :
    ErrInv (initState opts) ∧ ErrInv (refreshStart s) ∧ ErrInv (effectStart s) ∧
    ∀ (iv : JSVal) (k : FetchKind) (o : PromiseResult JSVal),
      ErrInv (settle iv k o s) := by
  refine ⟨by simp [ErrInv, initState], ?_, ?_, ?_⟩
  · simpa [ErrInv, refreshStart] using h
  · simpa [ErrInv, effectStart] using h
  · intro iv k o
    cases o <;> cases k <;>
      simp [ErrInv, settle, onFulfilled, onRejected, effectFin, refreshFin]

/-- Witness for C8 at a concrete state: the default-options initial state
satisfies the invariant, and the theorem applies to it. -/
theorem c8_error_flag_invariant_witness :
    ErrInv (initState {}) ∧
    (ErrInv (initState {}) ∧ ErrInv (refreshStart (initState {})) ∧
      ErrInv (effectStart (initState {})) ∧
      ∀ (iv : JSVal) (k : FetchKind) (o : PromiseResult JSVal),
        ErrInv (settle iv k o (initState {}))) :=
  ⟨rfl, c8_error_flag_invariant {} (initState {}) rfl⟩

/-- Claim C9: when `run` of `useAsyncAction` fails, `onError` is invoked
with the `error` binding captured by the closure at render time — the
pre-update value, whatever it was — while the freshly caught error of this
invocation is what gets stored into the `error` state cell. -/
theorem c9_onerror_gets_stale_closure_value (ce : Option JSError)
    (t : Throwable) (s : ActionState) :
    (runAction ce (.rejected t) s).onErrorArg = some ce ∧
    (runAction ce (.rejected t) s).state.error = some (coerceActionError t) := by
  simp [runAction]

/-- Claim C10: `run`'s returned promise resolves on both paths; on success
it carries `(data = result, error = null)` and on failure it carries
`(data = null, error = the original throwable unchanged)` — while the
hook's `error` state receives the coerced `Error` object, the returned pair
does not. -/
theorem c10_run_returns_pair (ce : Option JSError) (r : JSVal) (t : Throwable)
    (sa sb : ActionState) :
    (runAction ce (.resolved r) sa).promise = .resolved (r, none) ∧
    (runAction ce (.rejected t) sb).promise = .resolved (JSVal.null, some t) ∧
    (runAction ce (.rejected t) sb).state.error = some (coerceActionError t) := by
  simp [runAction]

end ReactHooks
